import Mathlib

/-!
Shallow embedding of the libmidi_io port core: the `BasePort` lifecycle
(construction, `close`, `receive`, `send`, `reset`), the `MultiPort`
aggregator, the `reset_messages` helper and the backend registry lookup
`get_backend`.  Python exceptions are modelled by an explicit error type,
Python truthiness by a `truthy` function on a small dynamic-value type, and
the mutable inbound queue `self._messages` by a `List` (head = oldest entry,
`popleft` = head removal, `append` = snoc).
-/

set_option linter.unusedVariables false

/-- Python exception values raised by the port core: `ValueError(msg)` and
`IOError(msg)` (aka `OSError`).  The source raises only these two classes. -/
inductive PyErr where
  | valueError (msg : String)
  | ioError (msg : String)
deriving DecidableEq, Repr

/-- Whether an exception is an `IOError`; `close()` swallows exactly these
during its best-effort reset step (`except IOError: pass`). -/
def PyErr.isIOError : PyErr → Bool
  | .ioError _ => true
  | .valueError _ => false

/-- Dynamic Python values as far as the port core stores them in the
`name` / `autoreset` attributes: `None`, a bool, a string, or an object
reference (MultiPort passes `self` as the `name` argument). -/
inductive PyVal where
  | pyNone
  | pyBool (b : Bool)
  | pyStr (s : String)
  | selfRef
deriving DecidableEq, Repr

/-- Python truthiness of a `PyVal`: `None` and `False` and `""` are falsy;
a non-empty string, `True` and any object reference are truthy. -/
def PyVal.truthy : PyVal → Bool
  | .pyNone => false
  | .pyBool b => b
  | .pyStr s => !s.isEmpty
  | .selfRef => true

/-- MIDI messages as the core sees them: an opaque payload (identified by a
tag) or a control-change message built by the reset helpers
(`MessageControlChange(channel=c, control=k, value=v)`). -/
inductive MIDIMessage where
  | controlChange (channel control value : Nat)
  | other (tag : Nat)
deriving DecidableEq, Repr

/-- `DEFAULT_NUM_CHANNELS = 16` from `libmidi_io/utils/messages.py`. -/
def DEFAULT_NUM_CHANNELS : Nat := 16

/-- `reset_messages(num_channels)` from `libmidi_io/utils/messages.py`:
for each channel in `range(num_channels)`, for each control in
`[ALL_NOTES_OFF, RESET_ALL_CONTROLLERS] = [123, 121]`, yield
`MessageControlChange(channel=channel, control=control, value=0)`. -/
def reset_messages (num_channels : Nat) : List MIDIMessage :=
  (List.range num_channels).flatMap (fun channel =>
    [123, 121].map (fun control => .controlChange channel control 0))

/-- A heap of message objects, used to model Python object identity for the
copy-on-send contract: an address is an index into `cells`, `msg.copy()`
allocates a fresh cell holding an equal value, and mutating the object at
one address never changes the value stored at a different address. -/
structure MsgHeap where
  cells : List MIDIMessage
deriving DecidableEq, Repr

/-- Read the message value stored at address `r`. -/
def MsgHeap.get (h : MsgHeap) (r : Nat) : Option MIDIMessage :=
  h.cells[r]?

/-- In-place mutation of the message object at address `r`. -/
def MsgHeap.set (h : MsgHeap) (r : Nat) (d : MIDIMessage) : MsgHeap :=
  ⟨h.cells.set r d⟩

/-- `msg.copy()`: allocate a fresh object (at address `h.cells.length`)
holding the same value as the object at address `m`. -/
def MsgHeap.copy (h : MsgHeap) (m : Nat) : MsgHeap × Nat :=
  (⟨h.cells ++ [h.cells[m]?.getD (.other 0)]⟩, h.cells.length)

/-- `BasePort.send` from `libmidi_io/types/port.py`, at the object-identity
level.  `is_output` and `closed` are the values of `self.is_output()` and
`self.closed`; `m` is the address of the caller's message object.  On
success the result is the heap after `msg.copy()` together with the address
that is forwarded to the transport primitive `self._send`. -/
def sendHeap (is_output : Bool) (closed : Bool) (h : MsgHeap) (m : Nat) :
    Except PyErr (MsgHeap × Nat) :=
  if !is_output then .error (.valueError "Not an output port")
  else if closed then .error (.valueError "send() called on closed port")
  else .ok (h.copy m)

/-- The value computed by `msg = self._receive(block=block)` inside
`BasePort.receive`: `None`, a message object, or — when the subclass wrote
`_receive` as a generator function, as `MultiPort` does — the suspended
generator object that a mere call to a generator function returns (its body
has not executed).  The subsequent `if msg:` test uses Python truthiness:
`None` is falsy, messages and generator objects are truthy. -/
inductive RecvVal where
  | noneVal
  | msg (m : MIDIMessage)
  | genObj
deriving DecidableEq, Repr

/-- Python truthiness of a `_receive` result. -/
def RecvVal.truthy : RecvVal → Bool
  | .noneVal => false
  | .msg _ => true
  | .genObj => true

/-- The subclass hooks a `BasePort` dispatches to, over a subclass state
type `St`: `is_input()` / `is_output()`, `_open`, `_close`,
`_receive(block)` and `_send(msg)`.  Fallible hooks return the optionally
raised exception together with the state after the attempt. -/
structure Transport (St : Type) where
  is_input : St → Bool
  is_output : St → Bool
  opn : St → Option PyErr × St
  cls : St → St
  recv : Bool → St → RecvVal × St
  snd : MIDIMessage → St → Option PyErr × St

/-- The attributes `BasePort.__init__` stores on `self`: `name`,
`autoreset`, `closed`, the inbound queue `self._messages` (head = oldest),
and the subclass state behind the hooks. -/
structure PortState (St : Type) where
  name : PyVal
  autoreset : PyVal
  closed : Bool
  messages : List MIDIMessage
  sub : St
deriving DecidableEq, Repr

/-- `BasePort.__init__(name, autoreset)`: sets the attributes, starts with
`closed = True`, runs the subclass `_open`, and only on success flips
`closed` to `False`.  If `_open` raises, the exception propagates out of
the constructor and the half-built object keeps `closed = True`. -/
def portInit {St : Type} (T : Transport St) (name autoreset : PyVal) (sub0 : St) :
    Option PyErr × PortState St :=
  let st0 : PortState St :=
    { name := name, autoreset := autoreset, closed := true, messages := [], sub := sub0 }
  match T.opn st0.sub with
  | (some e, sub1) => (some e, { st0 with sub := sub1 })
  | (none, sub1) => (none, { st0 with sub := sub1, closed := false })

/-- `BasePort.send(msg)` at the value level (object identity elided:
`msg.copy()` forwards an equal value; `sendHeap` models the identity side):
raise `ValueError` when not an output port, raise `ValueError` when closed,
else forward the copy to the subclass `_send`. -/
def sendV {St : Type} (T : Transport St) (st : PortState St) (m : MIDIMessage) :
    Option PyErr × PortState St :=
  if !(T.is_output st.sub) then (some (.valueError "Not an output port"), st)
  else if st.closed then (some (.valueError "send() called on closed port"), st)
  else
    match T.snd m st.sub with
    | (e, sub1) => (e, { st with sub := sub1 })

/-- `for msg in msgs: self.send(msg)` — stops at the first raised
exception, keeping the state mutations already performed. -/
def sendAll {St : Type} (T : Transport St) :
    List MIDIMessage → PortState St → Option PyErr × PortState St
  | [], st => (none, st)
  | m :: ms, st =>
    match sendV T st m with
    | (some e, st1) => (some e, st1)
    | (none, st1) => sendAll T ms st1

/-- `BasePort.reset()`: return immediately when closed, else send every
message of `reset_messages()` (with the default 16 channels) through the
normal `send` path. -/
def reset {St : Type} (T : Transport St) (st : PortState St) :
    Option PyErr × PortState St :=
  if st.closed then (none, st)
  else sendAll T (reset_messages DEFAULT_NUM_CHANNELS) st

/-- `BasePort.close()`: no-op when already closed; else, when `autoreset`
is truthy, run `reset()` swallowing `IOError` only (`except IOError: pass`
— any other exception propagates and aborts the close); then run the
subclass `_close` and set `closed = True`. -/
def close {St : Type} (T : Transport St) (st : PortState St) :
    Option PyErr × PortState St :=
  if st.closed then (none, st)
  else
    match
      (if st.autoreset.truthy then
        match reset T st with
        | (some e, st1) => if e.isIOError then (none, st1) else (some e, st1)
        | (none, st1) => (none, st1)
      else (none, st)) with
    | (some e, st1) => (some e, st1)
    | (none, st1) => (none, { st1 with sub := T.cls st1.sub, closed := true })

/-- One possible outcome of `BasePort.receive`: a returned value (a message,
`None`, or — through the `MultiPort` dispatch — a generator object) or a
raised exception. -/
inductive RecvOutcome (St : Type) where
  | ret (v : RecvVal) (st : PortState St)
  | raised (e : PyErr)
deriving DecidableEq, Repr

/-- The poll loop of `BasePort.receive`, single-threaded (no concurrent
mutation between iterations), with fuel bounding the number of iterations:
each iteration calls the subclass `_receive(block)`; a truthy result is
returned as-is; else a non-empty queue is popped; else `block=False`
returns `None`; else a closed port raises
`IOError("port closed during receive()")`; else sleep and repeat.
`none` means the fuel ran out with the loop still polling. -/
def receiveLoop {St : Type} (T : Transport St) (block : Bool) :
    Nat → PortState St → Option (RecvOutcome St)
  | 0, _ => none
  | fuel + 1, st =>
    match T.recv block st.sub with
    | (r, sub1) =>
      let st1 : PortState St := { st with sub := sub1 }
      if r.truthy then some (.ret r st1)
      else
        match st1.messages with
        | m :: rest => some (.ret (.msg m) { st1 with messages := rest })
        | [] =>
          if !block then some (.ret .noneVal st1)
          else if st1.closed then
            some (.raised (.ioError "port closed during receive()"))
          else receiveLoop T block fuel st1

/-- `BasePort.receive(block)`: raise `ValueError` when not an input port;
pop and return the oldest queued message when the queue is non-empty
(before any closed check); on an empty queue of a closed port return `None`
when `block=False` and raise
`ValueError("receive() called on closed port")` when `block=True`;
otherwise enter the poll loop. -/
def receive {St : Type} (T : Transport St) (st : PortState St) (block : Bool)
    (fuel : Nat) : Option (RecvOutcome St) :=
  if !(T.is_input st.sub) then some (.raised (.valueError "Not an input port"))
  else
    match st.messages with
    | m :: rest => some (.ret (.msg m) { st with messages := rest })
    | [] =>
      if st.closed then
        if block then some (.raised (.valueError "receive() called on closed port"))
        else some (.ret .noneVal st)
      else receiveLoop T block fuel st

/-- Repeated `receive` calls that collect returned messages, stopping at
the first call that does not return a message object. -/
def drain {St : Type} (T : Transport St) (block : Bool) (fuel : Nat) :
    Nat → PortState St → List MIDIMessage × PortState St
  | 0, st => ([], st)
  | n + 1, st =>
    match receive T st block fuel with
    | some (.ret (.msg m) st1) =>
      match drain T block fuel n st1 with
      | (ms, st2) => (m :: ms, st2)
    | _ => ([], st)

/-- What one locked iteration of the blocking poll loop observes, in the
concurrent setting: the result of this iteration's `_receive` call, the
contents of `self._messages`, and `self.closed` — other threads may have
changed the latter two during the preceding unlocked sleep. -/
structure Obs where
  transportVal : RecvVal
  queued : List MIDIMessage
  closed : Bool
deriving DecidableEq, Repr

/-- The poll loop of `BasePort.receive` run against a trace of per-iteration
observations (the concurrent counterpart of `receiveLoop`): the returned
`Nat` counts the `sleep(get_sleep_time())` calls performed before the loop
settled; `none` means the trace was exhausted with the loop still polling. -/
def receiveLoopEnv (block : Bool) :
    List Obs → Option (Except PyErr RecvVal) × Nat
  | [] => (none, 0)
  | o :: rest =>
    if o.transportVal.truthy then (some (.ok o.transportVal), 0)
    else
      match o.queued with
      | m :: _ => (some (.ok (.msg m)), 0)
      | [] =>
        if !block then (some (.ok .noneVal), 0)
        else if o.closed then
          (some (.error (.ioError "port closed during receive()")), 0)
        else
          match receiveLoopEnv block rest with
          | (r, n) => (r, n + 1)

/-- Subclass state of a plain (leaf) child port: its capability answers and
the log of messages its transport `_send` has received.  Its `_receive`
returns `None` (nothing available) and `_open` / `_close` do nothing, like
`EchoPort`'s trivial hooks. -/
structure ChildSub where
  input : Bool
  output : Bool
  sent : List MIDIMessage
deriving DecidableEq, Repr

/-- Transport hooks of a leaf child port. -/
def childTransport : Transport ChildSub where
  is_input := fun s => s.input
  is_output := fun s => s.output
  opn := fun s => (none, s)
  cls := fun s => s
  recv := fun _ s => (.noneVal, s)
  snd := fun m s => (none, { s with sent := s.sent ++ [m] })

/-- A child port of a `MultiPort`: a full port over `ChildSub`. -/
def ChildPort : Type := PortState ChildSub
deriving instance DecidableEq, Repr for ChildPort

/-- `MultiPort._send(message)`: iterate the children in list order, skip a
child that is not an output port, skip a closed child, call `port.send` on
the rest; an exception raised by a child's `send` propagates (the remaining
children are not visited). -/
def multiSend (m : MIDIMessage) : List ChildPort → Option PyErr × List ChildPort
  | [] => (none, [])
  | p :: ps =>
    if !(childTransport.is_output p.sub) then
      match multiSend m ps with
      | (e, ps1) => (e, p :: ps1)
    else if p.closed then
      match multiSend m ps with
      | (e, ps1) => (e, p :: ps1)
    else
      match sendV childTransport p m with
      | (some e, p1) => (some e, p1 :: ps)
      | (none, p1) =>
        match multiSend m ps with
        | (e, ps1) => (e, p1 :: ps1)

/-- Transport hooks of `MultiPort` over its list of children.
`is_input` / `is_output`: `False` on an empty child list, else `any` over
the children.  `_receive` is written as a generator function in the source,
so the call `self._receive(block=block)` made by `BasePort.receive` builds
and returns a suspended generator object without running any of the body —
no child is inspected and no shuffle happens; the model returns `.genObj`
with the children untouched.  `_open` and `_close` do nothing. -/
def multiTransport : Transport (List ChildPort) where
  is_input := fun ports => if ports.isEmpty then false else ports.any (fun p => p.sub.input)
  is_output := fun ports => if ports.isEmpty then false else ports.any (fun p => p.sub.output)
  opn := fun s => (none, s)
  cls := fun s => s
  recv := fun _ ports => (.genObj, ports)
  snd := fun m ports => multiSend m ports

/-- `MultiPort.__init__(ports)`: calls `super().__init__(self, "multi")` —
positionally binding `name = self` (the MultiPort object itself) and
`autoreset = "multi"` — and then stores `self.ports = ports`.  The base
constructor succeeds (`_open` does nothing), so `closed` ends up `False`. -/
def multiPortInit (ports : List ChildPort) : PortState (List ChildPort) :=
  { (portInit multiTransport .selfRef (.pyStr "multi") []).2 with sub := ports }

/-- Python `repr` of a string, as interpolated by the f-string
`f"Unknown backend {name!r}"` (quote-escaping elided: the modelled names
contain no quote characters). -/
def pyRepr (s : String) : String := "'" ++ s ++ "'"

/-- `get_backend(name)` from `libmidi_io/backends/__init__.py`, over the
mapping produced by the discovery step `get_available_backends()` (modelled
as an association list parameter — discovery itself walks the filesystem
and imports modules): raise `ValueError(f"Unknown backend {name!r}")` when
`name not in backends`, else return `backends[name]`. -/
def get_backend {β : Type} (backends : List (String × β)) (name : String) :
    Except PyErr β :=
  match backends.lookup name with
  | none => .error (.valueError ("Unknown backend " ++ pyRepr name))
  | some m => .ok m

/-- A transport whose `_send` always raises `IOError("boom")`: a driver
whose device vanished, used to exercise the best-effort reset in
`close()`. -/
def ioFailTransport : Transport Unit where
  is_input := fun _ => false
  is_output := fun _ => true
  opn := fun s => (none, s)
  cls := fun s => s
  recv := fun _ s => (.noneVal, s)
  snd := fun _ s => (some (.ioError "boom"), s)

/-- An open output-only child port with nothing buffered. -/
def openOutChild : ChildPort :=
  { name := .pyNone, autoreset := .pyBool false, closed := false,
    messages := [], sub := { input := false, output := true, sent := [] } }

/-- An open input-only child port with exactly one buffered message. -/
def bufChild (t : Nat) : ChildPort :=
  { name := .pyNone, autoreset := .pyBool false, closed := false,
    messages := [.other t], sub := { input := true, output := false, sent := [] } }

/-! ## Helper lemmas -/

/-- Peeling the last channel off `reset_messages`. -/
lemma reset_messages_succ (n : Nat) :
    reset_messages (n + 1) =
      reset_messages n ++ [.controlChange n 123 0, .controlChange n 121 0] := by
  simp [reset_messages, List.range_succ]

lemma reset_messages_length (n : Nat) : (reset_messages n).length = 2 * n := by
  induction n with
  | zero => rfl
  | succ k ih =>
    rw [reset_messages_succ, List.length_append, ih]
    simp
    ring

lemma reset_messages_get (n c : Nat) (h : c < n) :
    (reset_messages n)[2 * c]? = some (.controlChange c 123 0) ∧
    (reset_messages n)[2 * c + 1]? = some (.controlChange c 121 0) := by
  induction n with
  | zero => exact absurd h (Nat.not_lt_zero c)
  | succ k ih =>
    rw [reset_messages_succ]
    rcases Nat.lt_succ_iff_lt_or_eq.mp h with hlt | heq
    · have h1 : 2 * c < (reset_messages k).length := by
        rw [reset_messages_length]; omega
      have h2 : 2 * c + 1 < (reset_messages k).length := by
        rw [reset_messages_length]; omega
      rw [List.getElem?_append_left h1, List.getElem?_append_left h2]
      exact ih hlt
    · subst heq
      have hl : (reset_messages c).length = 2 * c := reset_messages_length c
      constructor
      · rw [List.getElem?_append_right (by omega)]
        simp [hl]
      · rw [List.getElem?_append_right (by omega)]
        simp [hl]

/-! ## Claim theorems -/

/-- C8: for every n ≥ 0, `reset_messages n` yields exactly `2 * n`
control-change messages in channel-major order — for each channel
`c < n`, position `2 * c` holds controller 123 value 0 and position
`2 * c + 1` holds controller 121 value 0 — and in particular
`reset_messages 16` yields exactly 32 messages in that order. -/
theorem C8_reset_messages_channel_major (n : Nat) :
    (reset_messages n).length = 2 * n ∧
    (∀ c, c < n →
      (reset_messages n)[2 * c]? = some (.controlChange c 123 0) ∧
      (reset_messages n)[2 * c + 1]? = some (.controlChange c 121 0)) ∧
    (reset_messages 16).length = 32 := by
  refine ⟨reset_messages_length n, fun c hc => reset_messages_get n c hc, ?_⟩
  decide

/-- C8 witness: the general theorem applied at `n = 16`, `c = 3`. -/
theorem C8_reset_messages_channel_major_witness :
    (reset_messages 16).length = 32 ∧
    (reset_messages 16)[6]? = some (.controlChange 3 123 0) ∧
    (reset_messages 16)[7]? = some (.controlChange 3 121 0) :=
  ⟨(C8_reset_messages_channel_major 16).2.2,
   ((C8_reset_messages_channel_major 16).2.1 3 (by decide)).1,
   ((C8_reset_messages_channel_major 16).2.1 3 (by decide)).2⟩

/-- C9: `get_backend` over the mapping produced by discovery fails with the
not-found `ValueError` whose message embeds the requested name when the
name is not a key, and returns the corresponding backend module when it
is. -/
theorem C9_get_backend_lookup {β : Type} (backends : List (String × β)) (name : String) :
    (backends.lookup name = none →
      get_backend backends name =
        .error (.valueError ("Unknown backend " ++ pyRepr name)) ∧
      ∃ pre post, "Unknown backend " ++ pyRepr name = pre ++ name ++ post) ∧
    (∀ m, backends.lookup name = some m → get_backend backends name = .ok m) := by
  constructor
  · intro h
    refine ⟨?_, "Unknown backend '", "'", ?_⟩
    · simp [get_backend, h]
    · simp [pyRepr]
      rfl
  · intro m h
    simp [get_backend, h]

/-- C9 witness: a one-entry mapping, one unknown and one known name. -/
theorem C9_get_backend_lookup_witness :
    get_backend [("rtmidi", (0 : Nat))] "kdmapi" =
      .error (.valueError ("Unknown backend " ++ pyRepr "kdmapi")) ∧
    get_backend [("rtmidi", (0 : Nat))] "rtmidi" = .ok 0 :=
  ⟨((C9_get_backend_lookup [("rtmidi", (0 : Nat))] "kdmapi").1 (by decide)).1,
   (C9_get_backend_lookup [("rtmidi", (0 : Nat))] "rtmidi").2 0 (by decide)⟩

/-- A single `receive` on a non-empty queue pops the head without looking
at `closed`, the transport or `block`. -/
lemma receive_pop {St : Type} (T : Transport St) (st : PortState St)
    (block : Bool) (fuel : Nat) (m : MIDIMessage) (rest : List MIDIMessage)
    (hin : T.is_input st.sub = true) (hq : st.messages = m :: rest) :
    receive T st block fuel = some (.ret (.msg m) { st with messages := rest }) := by
  simp [receive, hin, hq]

/-- Draining a queue of length `k` by `k` `receive` calls returns exactly
the queued messages in queue order and leaves the queue empty. -/
lemma drain_full {St : Type} (T : Transport St) (block : Bool) (fuel : Nat) :
    ∀ (msgs : List MIDIMessage) (st : PortState St),
      T.is_input st.sub = true → st.messages = msgs →
      drain T block fuel msgs.length st = (msgs, { st with messages := [] }) := by
  intro msgs
  induction msgs with
  | nil =>
    intro st hin hq
    simp [drain]
    cases st
    simp_all
  | cons m rest ih =>
    intro st hin hq
    have hrec := receive_pop T st block fuel m rest hin hq
    have hih := ih { st with messages := rest } (by simpa using hin) rfl
    simp [drain, hrec, hih]

/-- C3: on a port whose pending queue is non-empty, `receive` — with either
`block` value and regardless of the `closed` flag — immediately pops and
returns the oldest queued message, and repeated calls drain the whole
queue in FIFO (append) order, leaving it empty. -/
theorem C3_receive_fifo {St : Type} (T : Transport St) (st : PortState St)
    (block : Bool) (fuel : Nat) (hin : T.is_input st.sub = true) :
    (∀ m rest, st.messages = m :: rest →
      receive T st block fuel = some (.ret (.msg m) { st with messages := rest })) ∧
    drain T block fuel st.messages.length st = (st.messages, { st with messages := [] }) :=
  ⟨fun m rest hq => receive_pop T st block fuel m rest hin hq,
   drain_full T block fuel st.messages st hin rfl⟩

/-- C3 witness: a closed input port with two buffered messages; the drain
returns them oldest-first and empties the queue. -/
theorem C3_receive_fifo_witness :
    drain childTransport true 0 2
        { name := .pyNone, autoreset := .pyBool false, closed := true,
          messages := [.other 1, .other 2],
          sub := { input := true, output := false, sent := [] } } =
      ([.other 1, .other 2],
        { name := .pyNone, autoreset := .pyBool false, closed := true,
          messages := [],
          sub := { input := true, output := false, sent := [] } }) :=
  (C3_receive_fifo childTransport
    { name := .pyNone, autoreset := .pyBool false, closed := true,
      messages := [.other 1, .other 2],
      sub := { input := true, output := false, sent := [] } }
    true 0 (by decide)).2

/-- C2: on an input port whose queue is empty and whose `closed` flag is
true, `receive(block=False)` returns `None` as the claim states, but
`receive(block=True)` raises `ValueError("receive() called on closed port")`
— the same exception class as the capability-misuse errors — and not the
`IOError` that the closed-port error of the docstring
("If the port is closed and there are no pending messages, IOError will be
raised") and of the in-loop close path uses. -/
theorem C2_receive_closed_raises_valueerror {St : Type} (T : Transport St)
    (st : PortState St) (fuel : Nat) (hin : T.is_input st.sub = true)
    (hq : st.messages = []) (hc : st.closed = true) :
    receive T st false fuel = some (.ret .noneVal st) ∧
    receive T st true fuel =
      some (.raised (.valueError "receive() called on closed port")) ∧
    ∀ s, receive T st true fuel ≠ some (.raised (.ioError s)) := by
  refine ⟨?_, ?_, ?_⟩
  · simp [receive, hin, hq, hc]
  · simp [receive, hin, hq, hc]
  · intro s
    simp [receive, hin, hq, hc]

/-- C2 witness: a concrete closed input port with an empty queue. -/
theorem C2_receive_closed_raises_valueerror_witness :
    receive childTransport
        { name := .pyNone, autoreset := .pyBool false, closed := true,
          messages := [], sub := { input := true, output := false, sent := [] } }
        true 5 =
      some (.raised (.valueError "receive() called on closed port")) :=
  (C2_receive_closed_raises_valueerror childTransport
    { name := .pyNone, autoreset := .pyBool false, closed := true,
      messages := [], sub := { input := true, output := false, sent := [] } }
    5 (by decide) (by decide) (by decide)).2.1

/-- C4: `send` raises `ValueError` on a non-output port and on a closed
port; otherwise it forwards to the transport primitive a fresh address
`r` distinct from the address `m` of the caller's message, holding an
equal value, and a later in-place mutation of the object at `m` leaves
the value at `r` — what the transport received — unchanged. -/
theorem C4_send_copies (is_output closed : Bool) (h : MsgHeap)
    (m : Nat) (d : MIDIMessage) :
    (is_output = false →
      sendHeap is_output closed h m = .error (.valueError "Not an output port")) ∧
    (is_output = true → closed = true →
      sendHeap is_output closed h m =
        .error (.valueError "send() called on closed port")) ∧
    (is_output = true → closed = false → h.get m = some d →
      ∀ h2 r, sendHeap is_output closed h m = .ok (h2, r) →
        r ≠ m ∧ h2.get r = some d ∧ ∀ d2, (h2.set m d2).get r = some d) := by
  refine ⟨?_, ?_, ?_⟩
  · intro ho; subst ho; simp [sendHeap]
  · intro ho hc; subst ho; subst hc; simp [sendHeap]
  · intro ho hc hget h2 r hok
    subst ho; subst hc
    simp only [sendHeap, Bool.not_true, Bool.false_eq_true, if_false,
      ite_false, Except.ok.injEq] at hok
    have hm : m < h.cells.length := by
      simp only [MsgHeap.get] at hget
      exact (List.getElem?_eq_some.mp hget).1
    have hgd : h.cells[m]?.getD (.other 0) = d := by
      simp only [MsgHeap.get] at hget
      rw [hget]
      rfl
    have hcopy : h.copy m = (⟨h.cells ++ [d]⟩, h.cells.length) := by
      simp [MsgHeap.copy, hgd]
    rw [hcopy] at hok
    injection hok with hh2 hr
    refine ⟨by omega, ?_, ?_⟩
    · rw [← hh2, ← hr]
      simp only [MsgHeap.get]
      exact List.getElem?_concat_length h.cells d
    · intro d2
      rw [← hh2, ← hr]
      simp only [MsgHeap.set, MsgHeap.get]
      rw [List.getElem?_set_ne (by omega)]
      exact List.getElem?_concat_length h.cells d

/-- C4 witness: a concrete open output port, heap with one message at
address 0; the copy lands at address 1 and survives mutating address 0. -/
theorem C4_send_copies_witness :
    sendHeap true false ⟨[.other 7]⟩ 0 = .ok (⟨[.other 7, .other 7]⟩, 1) ∧
    (1 : Nat) ≠ 0 ∧ (MsgHeap.get ⟨[.other 7, .other 7]⟩ 1 = some (.other 7)) ∧
    ((MsgHeap.set ⟨[.other 7, .other 7]⟩ 0 (.other 9)).get 1 = some (.other 7)) := by
  have hmain := (C4_send_copies true false ⟨[.other 7]⟩ 0 (.other 7)).2.2
    rfl rfl (by decide) ⟨[.other 7, .other 7]⟩ 1 rfl
  exact ⟨rfl, hmain.1, hmain.2.1, hmain.2.2 (.other 9)⟩

/-- C5: in any poll-loop iteration of a blocking `receive` where the
transport yields nothing, the queue is empty and `closed` has become true,
the loop raises `IOError("port closed during receive()")` immediately:
whatever observations would have followed, no further sleep-and-retry
iteration is performed (the sleep count from this iteration on is 0). -/
theorem C5_closed_stops_poll_loop (o : Obs) (rest : List Obs)
    (ht : o.transportVal = .noneVal) (hq : o.queued = []) (hc : o.closed = true) :
    receiveLoopEnv true (o :: rest) =
      (some (.error (.ioError "port closed during receive()")), 0) := by
  simp [receiveLoopEnv, ht, hq, hc, RecvVal.truthy]

/-- C5 witness: the closing iteration followed by a trace that would have
kept polling; the loop still stops with the closed-port error and sleeps
zero further times. -/
theorem C5_closed_stops_poll_loop_witness :
    receiveLoopEnv true
        [⟨.noneVal, [], true⟩, ⟨.noneVal, [], false⟩, ⟨.msg (.other 3), [], false⟩] =
      (some (.error (.ioError "port closed during receive()")), 0) :=
  C5_closed_stops_poll_loop ⟨.noneVal, [], true⟩
    [⟨.noneVal, [], false⟩, ⟨.msg (.other 3), [], false⟩] rfl rfl rfl

/-- C6: the `closed` flag life cycle.  A successful construction ends with
`closed = False`; a failed `_open` propagates with the half-built object
still `closed = True` (construction failure never reaches the open state).
A `close()` that returns sets `closed = True` having invoked the subclass
`_close` exactly once (the final subclass state is one `cls` application;
with `autoreset` falsy the result is exactly the input state with `cls`
applied once and `closed` set).  A second `close()` on a closed port is a
no-op: no error, no state change, no second `_close`.  And no operation —
`close`, `sendV`, `reset` or `receive` — ever turns `closed` back to
false. -/
theorem C6_closed_flag_lifecycle {St : Type} (T : Transport St) :
    (∀ name ar sub0 st, portInit T name ar sub0 = (none, st) → st.closed = false) ∧
    (∀ name ar sub0 e st, portInit T name ar sub0 = (some e, st) → st.closed = true) ∧
    (∀ st st1, st.closed = false → close T st = (none, st1) →
      st1.closed = true ∧ ∃ s1 : PortState St, st1.sub = T.cls s1.sub) ∧
    (∀ st, st.autoreset.truthy = false → st.closed = false →
      close T st = (none, { st with sub := T.cls st.sub, closed := true })) ∧
    (∀ st, st.closed = true → close T st = (none, st)) ∧
    (∀ st m, st.closed = true → ((sendV T st m).2).closed = true) ∧
    (∀ st, st.closed = true → reset T st = (none, st)) ∧
    (∀ st block fuel v st1, st.closed = true →
      receive T st block fuel = some (.ret v st1) → st1.closed = true) := by
  refine ⟨?_, ?_, ?_, ?_, ?_, ?_, ?_, ?_⟩
  · intro name ar sub0 st hinit
    simp only [portInit] at hinit
    rcases hop : T.opn sub0 with ⟨e?, sub1⟩
    cases e? <;> simp [hop] at hinit <;> simp [← hinit]
  · intro name ar sub0 e st hinit
    simp only [portInit] at hinit
    rcases hop : T.opn sub0 with ⟨e?, sub1⟩
    cases e? <;> simp [hop] at hinit
    simp [← hinit.2]
  · intro st st1 hcl hq
    rcases har : st.autoreset.truthy with _ | _
    · simp [close, hcl, har] at hq
      exact ⟨by simp [← hq], st, by simp [← hq]⟩
    · rcases hres : reset T st with ⟨e?, s1⟩
      cases e? with
      | none =>
        simp [close, hcl, har, hres] at hq
        exact ⟨by simp [← hq], s1, by simp [← hq]⟩
      | some e =>
        rcases hio : e.isIOError with _ | _
        · simp [close, hcl, har, hres, hio] at hq
        · simp [close, hcl, har, hres, hio] at hq
          exact ⟨by simp [← hq], s1, by simp [← hq]⟩
  · intro st har hcl
    simp [close, hcl, har]
  · intro st hcl
    simp [close, hcl]
  · intro st m hcl
    rcases ho : T.is_output st.sub with _ | _
    · simp [sendV, ho, hcl]
    · simp [sendV, ho, hcl]
  · intro st hcl
    simp [reset, hcl]
  · intro st block fuel v st1 hcl hrec
    rcases hin : T.is_input st.sub with _ | _
    · simp [receive, hin] at hrec
    · rcases hm : st.messages with _ | ⟨m, rest⟩
      · cases block <;> simp [receive, hin, hm, hcl] at hrec <;> simp [← hrec.2, hcl]
      · simp [receive, hin, hm] at hrec
        simp [← hrec.2, hcl]

/-- C6 witness: a concrete open port is constructed non-closed, its first
`close` sets the flag with one transport close, and a second `close` is a
no-op. -/
theorem C6_closed_flag_lifecycle_witness :
    (portInit childTransport .pyNone (.pyBool false)
        { input := true, output := false, sent := [] }).2.closed = false ∧
    close childTransport
        { name := .pyNone, autoreset := .pyBool false, closed := false,
          messages := [], sub := { input := true, output := false, sent := [] } } =
      (none,
        { name := .pyNone, autoreset := .pyBool false, closed := true,
          messages := [], sub := { input := true, output := false, sent := [] } }) ∧
    close childTransport
        { name := .pyNone, autoreset := .pyBool false, closed := true,
          messages := [], sub := { input := true, output := false, sent := [] } } =
      (none,
        { name := .pyNone, autoreset := .pyBool false, closed := true,
          messages := [], sub := { input := true, output := false, sent := [] } }) :=
  ⟨(C6_closed_flag_lifecycle childTransport).1 .pyNone (.pyBool false)
      { input := true, output := false, sent := [] } _ rfl,
   (C6_closed_flag_lifecycle childTransport).2.2.2.1
      { name := .pyNone, autoreset := .pyBool false, closed := false,
        messages := [], sub := { input := true, output := false, sent := [] } }
      rfl rfl,
   (C6_closed_flag_lifecycle childTransport).2.2.2.2.1
      { name := .pyNone, autoreset := .pyBool false, closed := true,
        messages := [], sub := { input := true, output := false, sent := [] } }
      rfl⟩

/-- C7 counterexample: a `MultiPort` with no children is open and has a
truthy `autoreset`, yet `close()` does not complete shutdown: the reset
step raises `ValueError("Not an output port")` (not an `IOError`), the
`except IOError` clause does not catch it, and the port stays
`closed = False` with the subclass close never invoked. -/
theorem C7_close_reset_counterexample :
    close multiTransport (multiPortInit []) =
      (some (.valueError "Not an output port"), multiPortInit []) ∧
    (close multiTransport (multiPortInit [])).2.closed = false := by
  constructor <;> rfl

/-- C7 (amended): for every open port with truthy `autoreset`, `close()`
attempts the reset sequence and catches and discards an `IOError` raised
by it — completing shutdown (subclass close invoked, `closed` set true)
whether the reset step succeeded or failed with an `IOError` — while a
reset failure of any other exception class propagates and aborts the
close. -/
theorem C7_close_swallows_ioerror {St : Type} (T : Transport St)
    (st : PortState St) (hcl : st.closed = false) (har : st.autoreset.truthy = true) :
    (∀ s msg1, reset T st = (some (.ioError msg1), s) →
      close T st = (none, { s with sub := T.cls s.sub, closed := true })) ∧
    (∀ s, reset T st = (none, s) →
      close T st = (none, { s with sub := T.cls s.sub, closed := true })) ∧
    (∀ s e, reset T st = (some e, s) → e.isIOError = false →
      close T st = (some e, s)) := by
  refine ⟨?_, ?_, ?_⟩
  · intro s msg1 hres
    simp [close, hcl, har, hres, PyErr.isIOError]
  · intro s hres
    simp [close, hcl, har, hres]
  · intro s e hres hio
    simp [close, hcl, har, hres, hio]

/-- C7 witness: a port whose transport `_send` raises `IOError("boom")`;
its reset step fails with an `IOError`, and `close()` still completes with
`closed = True`. -/
theorem C7_close_swallows_ioerror_witness :
    close ioFailTransport
        { name := .pyNone, autoreset := .pyBool true, closed := false,
          messages := [], sub := () } =
      (none,
        { name := .pyNone, autoreset := .pyBool true, closed := true,
          messages := [], sub := () }) :=
  (C7_close_swallows_ioerror ioFailTransport
    { name := .pyNone, autoreset := .pyBool true, closed := false,
      messages := [], sub := () } rfl rfl).1
    { name := .pyNone, autoreset := .pyBool true, closed := false,
      messages := [], sub := () } "boom" rfl

/-- C10: constructing a `MultiPort` runs `super().__init__(self, "multi")`,
so its `name` attribute is the object reference itself (never a string) and
its `autoreset` attribute is the truthy string `"multi"`; consequently
`close()` on any constructed `MultiPort` takes the autoreset branch — it
routes through the reset attempt — and on a `MultiPort` with one open
output child the reset sequence actually reaches the child transport before
the port is marked closed. -/
theorem C10_multiport_init_autoreset (ports : List ChildPort) :
    (multiPortInit ports).name = .selfRef ∧
    (∀ s, (multiPortInit ports).name ≠ .pyStr s) ∧
    (multiPortInit ports).autoreset = .pyStr "multi" ∧
    (multiPortInit ports).autoreset.truthy = true ∧
    (multiPortInit ports).closed = false ∧
    close multiTransport (multiPortInit ports) =
      (match reset multiTransport (multiPortInit ports) with
       | (some e, st1) =>
         if e.isIOError then
           (none, { st1 with sub := multiTransport.cls st1.sub, closed := true })
         else (some e, st1)
       | (none, st1) =>
         (none, { st1 with sub := multiTransport.cls st1.sub, closed := true })) ∧
    close multiTransport (multiPortInit [openOutChild]) =
      (none,
        { multiPortInit [openOutChild] with
            sub := [{ openOutChild with
              sub := { openOutChild.sub with
                sent := reset_messages DEFAULT_NUM_CHANNELS } }],
            closed := true }) := by
  have hname : (multiPortInit ports).name = .selfRef := rfl
  have hcl : (multiPortInit ports).closed = false := rfl
  have har : (multiPortInit ports).autoreset.truthy = true := rfl
  refine ⟨rfl, fun s h => by rw [hname] at h; exact PyVal.noConfusion h,
    rfl, rfl, rfl, ?_, ?_⟩
  · rcases hres : reset multiTransport (multiPortInit ports) with ⟨e?, st1⟩
    cases e? with
    | none => simp [close, hres, hcl, har]
    | some e =>
      rcases hio : e.isIOError with _ | _ <;> simp [close, hres, hio, hcl, har]
  · rfl

/-- C1: `MultiPort._receive` is written as a generator function, so the
call `self._receive(block=block)` inside `BasePort.receive` returns a
suspended (truthy) generator object without executing its body.  A
non-blocking `receive` on any open input-capable `MultiPort` with its own
queue empty therefore returns that generator object with the whole state —
including every child port and its buffered messages — unchanged: it never
returns a child's buffered message as a `Message` value and never reports
"no message" (`None`), so the claimed drain sweep neither yields the
children's messages nor terminates. -/
theorem C1_multiport_receive_yields_generator
    (st : PortState (List ChildPort)) (fuel : Nat)
    (hin : multiTransport.is_input st.sub = true) (hq : st.messages = [])
    (hcl : st.closed = false) (hf : 0 < fuel) :
    receive multiTransport st false fuel = some (.ret .genObj st) ∧
    (∀ st1, receive multiTransport st false fuel ≠ some (.ret .noneVal st1)) ∧
    (∀ m st1, receive multiTransport st false fuel ≠ some (.ret (.msg m) st1)) := by
  obtain ⟨f, rfl⟩ : ∃ f, fuel = f + 1 :=
    ⟨fuel - 1, (Nat.succ_pred_eq_of_pos hf).symm⟩
  obtain ⟨nm, ar, cl, msgs, sub⟩ := st
  simp only at hin hq hcl
  subst hq; subst hcl
  have hmain : receive multiTransport
      ⟨nm, ar, false, [], sub⟩ false (f + 1) =
      some (.ret .genObj ⟨nm, ar, false, [], sub⟩) := by
    have hrecv : multiTransport.recv false sub = (.genObj, sub) := rfl
    simp [receive, receiveLoop, hin, hrecv, RecvVal.truthy]
  refine ⟨hmain, ?_, ?_⟩
  · intro st1 hcontra
    rw [hmain] at hcontra
    simp at hcontra
  · intro m st1 hcontra
    rw [hmain] at hcontra
    simp at hcontra

/-- C1 witness: a `MultiPort` over two open input children, each holding
one buffered message; the non-blocking receive returns the generator
object and leaves both children's buffers intact. -/
theorem C1_multiport_receive_yields_generator_witness :
    receive multiTransport (multiPortInit [bufChild 1, bufChild 2]) false 1 =
      some (.ret .genObj (multiPortInit [bufChild 1, bufChild 2])) ∧
    (multiPortInit [bufChild 1, bufChild 2]).sub.map (fun p => p.messages) =
      [[.other 1], [.other 2]] :=
  ⟨(C1_multiport_receive_yields_generator
      (multiPortInit [bufChild 1, bufChild 2]) 1 rfl rfl rfl (by decide)).1,
   rfl⟩
